import Mathlib

/-!
Verification of the net-lib data-exchange server and HTTP probe engine.

The definitions below are a shallow embedding of the Python sources:
  * `src/data/server.py`   — `DataServer` (class-level stores, `GetCallback`,
    `PostCallback`, `AddData`, the merge step of `Stop`) and
    `DataHandler.do_GET`;
  * `src/netlib/data/client.py` — `DataClient.Recv`;
  * `src/net/http.py`      — `HttpScraper.HttpCheck`, `HttpLatency` and the
    elastic thread pool (`ThreadedLatency` / `GenUrlListThreaded`).

Python values that can appear in the stores are modelled by the inductive
type `PyObj`; Python dicts are modelled as association lists with
last-write-wins update (`dset`) and first-match lookup (`dget`), keeping the
keys unique.  Raising Python code is modelled with `Except PyError` or an
explicit `Option PyError` component.  Network transport (connection set-up,
request, response) is passed to each function as an explicit argument: a
response value when the exchange succeeds, a distinguished value when the
transport layer would raise.
-/

deriving instance DecidableEq for Except

namespace NetLib

/-- Python exception classes that the modelled code can raise. -/
inductive PyError where
  | typeError
  | attributeError
  | assertionError
  | socketError
deriving DecidableEq

/-- Model of the Python objects stored and exchanged by the data server:
`None`, strings (also standing for raw byte strings), integers and
dictionaries with string keys. -/
inductive PyObj where
  | pyNone : PyObj
  | pyStr : String → PyObj
  | pyInt : Int → PyObj
  | pyDict : List (String × PyObj) → PyObj

mutual

/-- Boolean equality on `PyObj`, written by hand because the type nests
lists of pairs. -/
def PyObj.beq : PyObj → PyObj → Bool
  | PyObj.pyNone, PyObj.pyNone => true
  | PyObj.pyStr a, PyObj.pyStr b => a == b
  | PyObj.pyInt a, PyObj.pyInt b => a == b
  | PyObj.pyDict a, PyObj.pyDict b => PyObj.beqEntries a b
  | _, _ => false

/-- Boolean equality on dict entry lists, companion of `PyObj.beq`. -/
def PyObj.beqEntries : List (String × PyObj) → List (String × PyObj) → Bool
  | [], [] => true
  | (k1, v1) :: t1, (k2, v2) :: t2 =>
    k1 == k2 && PyObj.beq v1 v2 && PyObj.beqEntries t1 t2
  | _, _ => false

end

mutual

theorem PyObj.beq_iff_eq : ∀ (a b : PyObj), PyObj.beq a b = true ↔ a = b
  | PyObj.pyNone, PyObj.pyNone => by simp [PyObj.beq]
  | PyObj.pyStr a, PyObj.pyStr b => by simp [PyObj.beq]
  | PyObj.pyInt a, PyObj.pyInt b => by simp [PyObj.beq]
  | PyObj.pyDict a, PyObj.pyDict b => by
    simp only [PyObj.beq, PyObj.beqEntries_iff_eq a b, PyObj.pyDict.injEq]
  | PyObj.pyNone, PyObj.pyStr _ => by simp [PyObj.beq]
  | PyObj.pyNone, PyObj.pyInt _ => by simp [PyObj.beq]
  | PyObj.pyNone, PyObj.pyDict _ => by simp [PyObj.beq]
  | PyObj.pyStr _, PyObj.pyNone => by simp [PyObj.beq]
  | PyObj.pyStr _, PyObj.pyInt _ => by simp [PyObj.beq]
  | PyObj.pyStr _, PyObj.pyDict _ => by simp [PyObj.beq]
  | PyObj.pyInt _, PyObj.pyNone => by simp [PyObj.beq]
  | PyObj.pyInt _, PyObj.pyStr _ => by simp [PyObj.beq]
  | PyObj.pyInt _, PyObj.pyDict _ => by simp [PyObj.beq]
  | PyObj.pyDict _, PyObj.pyNone => by simp [PyObj.beq]
  | PyObj.pyDict _, PyObj.pyStr _ => by simp [PyObj.beq]
  | PyObj.pyDict _, PyObj.pyInt _ => by simp [PyObj.beq]

theorem PyObj.beqEntries_iff_eq : ∀ (a b : List (String × PyObj)),
    PyObj.beqEntries a b = true ↔ a = b
  | [], [] => by simp [PyObj.beqEntries]
  | (k1, v1) :: t1, (k2, v2) :: t2 => by
    simp only [PyObj.beqEntries, Bool.and_eq_true,
      PyObj.beq_iff_eq v1 v2, PyObj.beqEntries_iff_eq t1 t2, List.cons.injEq,
      Prod.mk.injEq]
    constructor
    · rintro ⟨⟨hk, hv⟩, ht⟩
      exact ⟨⟨eq_of_beq hk, hv⟩, ht⟩
    · rintro ⟨⟨hk, hv⟩, ht⟩
      exact ⟨⟨by simp [hk], hv⟩, ht⟩
  | [], (_, _) :: _ => by simp [PyObj.beqEntries]
  | (_, _) :: _, [] => by simp [PyObj.beqEntries]

end

instance : DecidableEq PyObj := fun a b =>
  decidable_of_iff (PyObj.beq a b = true) (PyObj.beq_iff_eq a b)

/-- Python dict lookup `d[k]` / `d.get(k)`: the entry for key `k`. -/
def dget : List (String × PyObj) → String → Option PyObj
  | [], _ => none
  | (k2, v) :: t, k => if k2 = k then some v else dget t k

/-- Python dict membership `k in d`. -/
def dmem (d : List (String × PyObj)) (k : String) : Bool :=
  (dget d k).isSome

/-- Removal of every entry for key `k`, helper for `dset`. -/
def derase : List (String × PyObj) → String → List (String × PyObj)
  | [], _ => []
  | (k2, v) :: t, k => if k2 = k then derase t k else (k2, v) :: derase t k

/-- Python dict assignment `d[k] = v`: last write wins, keys stay unique. -/
def dset (d : List (String × PyObj)) (k : String) (v : PyObj) :
    List (String × PyObj) :=
  (k, v) :: derase d k

/-- `len(x)` for the modelled objects: defined for strings and dicts,
a `TypeError` (`none`) for `None` and integers. -/
def pyLen : PyObj → Option Nat
  | PyObj.pyStr s => some s.length
  | PyObj.pyDict d => some d.length
  | PyObj.pyNone => none
  | PyObj.pyInt _ => none

/-- The class-level mutable state of `DataServer` (src/data/server.py,
lines 187-191).  In the source these four dictionaries are attributes of the
class itself, not of any instance, so one copy exists per process; the
embedding therefore threads a single value of this structure through every
operation, and the instance on which a method is invoked is passed separately
(see `AddDataVia` and friends) and ignored exactly where the source accesses
the class-qualified names. -/
structure DataServer where
  ip_cache : List (String × PyObj)
  data_recv : List (String × PyObj)
  ip_data_store : List (String × PyObj)
  all_data_store : List (String × PyObj)
deriving DecidableEq

/-- `DataServer.GET_ALL_DATA` (src/data/server.py line 191): the reserved
path under which a GET returns the whole received-data store. -/
def GET_ALL_DATA : String := "9e5bb17c123c0cda16cd16e742a55c72"

/-- `DataServer.GetCallback` (src/data/server.py lines 194-221).
Returns the Python object the server answers with: the whole `data_recv`
dict for the reserved path, else the broadcast value for the path, else the
per-address value, else `None`. -/
def GetCallback (s : DataServer) (address path : String) : PyObj :=
  if path = GET_ALL_DATA then PyObj.pyDict s.data_recv
  else
    match dget s.all_data_store path with
    | some v => v
    | none =>
      match dget s.ip_data_store address with
      | some v => v
      | none => PyObj.pyNone

/-- `DataServer.PostCallback` (src/data/server.py lines 223-249).
For the reserved path it logs and returns `None` without touching the state.
Otherwise it stores the data under `path_address` and then builds the
confirmation string from `len(data)`; in the source the store happens before
`len` is evaluated, so when `len(data)` raises a `TypeError` the store is
already mutated — the returned state reflects that. -/
def PostCallback (s : DataServer) (address path : String) (data : PyObj) :
    Except PyError (Option String) × DataServer :=
  if path = GET_ALL_DATA then (Except.ok none, s)
  else
    let key := path ++ "_" ++ address
    let s2 := { s with data_recv := dset s.data_recv key data }
    match pyLen data with
    | some n => (Except.ok (some (key ++ " = " ++ toString n ++ " Bytes")), s2)
    | none => (Except.error PyError.typeError, s2)

/-- The wire-visible outcome of a GET request. -/
structure GetResponse where
  status : Nat
  body : Option PyObj
deriving DecidableEq

/-- `DataHandler.do_GET` (src/data/server.py lines 121-138): sends 200 with
the (pickled) object when the callback result is not `None`, else a 404
error with no data body. -/
def do_GET (s : DataServer) (address path : String) : GetResponse :=
  let data := GetCallback s address path
  if data ≠ PyObj.pyNone then { status := 200, body := some data }
  else { status := 404, body := none }

/-- Python truthiness of an optional string argument: `None` and the empty
string are falsy. -/
def truthy : Option String → Bool
  | none => false
  | some s => s ≠ ""

/-- `DataServer.AddData` (src/data/server.py lines 324-354), restricted to
its store mutations (the stop/restart bracketing touches no store).  The
`resolve` argument models `socket.gethostbyname`.  With a key given,
`assert not hostname` raises `AssertionError` when `hostname` is truthy,
before any store is touched; with only a hostname, the name is resolved
through `ip_cache` and the value stored under the resolved address; with
neither, the call only logs an error. -/
def AddData (s : DataServer) (resolve : String → String) (value : PyObj)
    (hostname key : Option String) : Option PyError × DataServer :=
  match key with
  | some k =>
    if truthy hostname then (some PyError.assertionError, s)
    else (none, { s with all_data_store := dset s.all_data_store k value })
  | none =>
    match hostname with
    | some h =>
      let s1 :=
        if dmem s.ip_cache h then s
        else { s with ip_cache := dset s.ip_cache h (PyObj.pyStr (resolve h)) }
      match dget s1.ip_cache h with
      | some (PyObj.pyStr ip) =>
        (none, { s1 with ip_data_store := dset s1.ip_data_store ip value })
      | _ => (none, s1)
    | none => (none, s)

/-- The merge step of `DataServer.Stop` (src/data/server.py lines 312-313):
`for key in recv_data: DataServer.data_recv[key] = recv_data[key]`.
`recv_data` is whatever the drain `Recv` returned; when that is `None`
(modelled `none`), iterating it raises `TypeError` before any assignment,
leaving `data_recv` unchanged.  When it is a dict, every key of the snapshot
is written into `data_recv`, overwriting on collision. -/
def StopMerge (recv_data : Option (List (String × PyObj)))
    (data_recv : List (String × PyObj)) :
    Except PyError (List (String × PyObj)) :=
  match recv_data with
  | none => Except.error PyError.typeError
  | some d => Except.ok (d.foldl (fun acc kv => dset acc kv.1 kv.2) data_recv)

/-- The instance-level data of a `DataServer` object
(src/data/server.py lines 251-269): host and port.  None of the four stores
lives on the instance; every store access in the source is class-qualified
(`DataServer.all_data_store` and so on). -/
structure DSInstance where
  host : String
  port : Nat
deriving DecidableEq

/-- `AddData` as invoked on a particular instance.  The source method
mutates only the class-level dictionaries, so the instance argument is
ignored (the stop/restart bracketing around the mutation touches no
store). -/
def AddDataVia (_inst : DSInstance) (s : DataServer) (resolve : String → String)
    (value : PyObj) (hostname key : Option String) : Option PyError × DataServer :=
  AddData s resolve value hostname key

/-- `Results` (src/data/server.py lines 356-368) as invoked on a particular
instance: returns the class-level `data_recv` dictionary. -/
def ResultsVia (_inst : DSInstance) (s : DataServer) : List (String × PyObj) :=
  s.data_recv

/-- `Start` (src/data/server.py lines 284-294) as invoked on a particular
instance, restricted to the stores: starting the serving process reads and
writes none of the four class-level dictionaries. -/
def StartVia (_inst : DSInstance) (s : DataServer) : DataServer := s

/-- `Stop` (src/data/server.py lines 296-313) as invoked on a particular
instance, restricted to the stores: the drain result is merged into the
class-level `data_recv` by `StopMerge`. -/
def StopVia (_inst : DSInstance) (recv_data : Option (List (String × PyObj)))
    (s : DataServer) : Except PyError DataServer :=
  match StopMerge recv_data s.data_recv with
  | Except.ok d => Except.ok { s with data_recv := d }
  | Except.error e => Except.error e

/-- An HTTP response as the modelled code observes it: the status line plus
the headers and body the code reads.  A header absent from the response is
`none` (`getheader` returns `None`). -/
structure HttpResponse where
  status : Nat
  location : Option String
  content_length : Option String
  python_type : Option String
  body : String
deriving DecidableEq

/-- The three fields of a split URL that the modelled code uses. -/
structure SplitResult where
  scheme : String
  netloc : String
  path : String
deriving DecidableEq

/-- `resource.startswith('/')`. -/
def startsWithSlash (resource : String) : Bool :=
  match resource.toList with
  | '/' :: _ => true
  | _ => false

/-- Characters allowed in a URL scheme (`urlparse.scheme_chars`). -/
def isSchemeChar (c : Char) : Bool :=
  c.isAlpha || c.isDigit || c = '+' || c = '-' || c = '.'

/-- `url.split(c, 1)[0]` when `c` occurs in the list, else the whole list. -/
def takeUntilChar (cs : List Char) (c : Char) : List Char :=
  cs.takeWhile (fun x => x ≠ c)

/-- `urlparse._splitnetloc`: the netloc runs from the start to the first of
`/`, `?` or `#`; the delimiter stays with the remainder. -/
def isNetlocEnd (c : Char) : Bool := c = '/' || c = '?' || c = '#'

/-- Model of Python 2.6 `urlparse.urlsplit`, restricted to the
(scheme, netloc, path) fields the code uses: an initial `scheme:` prefix of
scheme characters is stripped and lowercased; a `//` prefix introduces the
netloc, ending at the first `/`, `?` or `#`; the fragment (after the first
`#`) and then the query (after the first `?`) are stripped from the path.
(The source consults `uses_fragment` / `uses_query` before stripping; both
lists contain the schemes the code meets — http, https and the empty
scheme.) -/
def urlsplit (url : String) : SplitResult :=
  let cs := url.toList
  let (scheme, rest) :=
    match cs.findIdx? (fun c => c = ':') with
    | some i =>
      if 0 < i ∧ (cs.take i).all isSchemeChar then
        (String.mk ((cs.take i).map Char.toLower), cs.drop (i + 1))
      else ("", cs)
    | none => ("", cs)
  let (netloc, rest2) :=
    match rest with
    | '/' :: '/' :: tail =>
      (String.mk (tail.takeWhile (fun c => ¬ isNetlocEnd c)),
       tail.dropWhile (fun c => ¬ isNetlocEnd c))
    | _ => ("", rest)
  let rest3 := takeUntilChar rest2 '#'
  let rest4 := takeUntilChar rest3 '?'
  { scheme := scheme, netloc := netloc, path := String.mk rest4 }

/-- `HttpScraper.HttpCheck` (src/net/http.py lines 247-302).  The instance
fields `self.netloc` / `self.scheme` are the first two arguments; the
outcome of the guarded transport block (`conn.request('HEAD', ...)` through
`conn.getresponse()`) is passed as `resp` — `none` when any of it raised
(then the bare `except` logs and returns `None`).  Classification of the
response happens after (outside) the `try`: 200-206 keeps the request
target; 300-307 splits the `location` header, which raises
`AttributeError` when the header is missing (`urlsplit(None)`); anything
else falls off the end, returning `None`. -/
def HttpCheck (selfNetloc selfScheme host resource scheme : String)
    (resp : Option HttpResponse) :
    Except PyError (Option (String × String × String × Option String)) :=
  let host := if host = "" then selfNetloc else host
  let scheme := if scheme = "" then selfScheme else scheme
  let resource := if startsWithSlash resource then resource else "/" ++ resource
  match resp with
  | none => Except.ok none
  | some r =>
    if 200 ≤ r.status ∧ r.status ≤ 206 then
      Except.ok (some (host, resource, scheme, r.content_length))
    else if 300 ≤ r.status ∧ r.status ≤ 307 then
      match r.location with
      | none => Except.error PyError.attributeError
      | some loc =>
        let t := urlsplit loc
        Except.ok (some (t.netloc, t.path, t.scheme, r.content_length))
    else Except.ok none

/-- `URLRecord` (src/net/http.py lines 55-72). -/
structure URLRecord where
  netloc : String
  path : String
  scheme : String
  size : Nat
  resp_time : Int
  err_time : Int
deriving DecidableEq

/-- Outcome of the transport block of a probe: a response that was fully
read, a `socket.timeout`, or any other exception. -/
inductive Transport where
  | resp : HttpResponse → Transport
  | timeout : Transport
  | failure : Transport
deriving DecidableEq

/-- `HttpLatency` (src/net/http.py lines 307-368).  The timer readings are
passed in (`time.time()` / `time.clock()` pairs taken before and after the
transfer).  A timeout or any other transport exception is caught and the
function returns `False` (modelled `none`); 200-206 and 300-307 responses
yield a `URLRecord` with `len(data)`, the wall-clock delta and the
cpu-clock delta; any other status logs and returns `False`. -/
def HttpLatency (host resource scheme : String) (t : Transport)
    (start_wall end_wall start_cpu end_cpu : Int) : Option URLRecord :=
  match t with
  | Transport.timeout => none
  | Transport.failure => none
  | Transport.resp r =>
    if 200 ≤ r.status ∧ r.status ≤ 206 then
      some { netloc := host, path := resource, scheme := scheme,
             size := r.body.length, resp_time := end_wall - start_wall,
             err_time := end_cpu - start_cpu }
    else if 300 ≤ r.status ∧ r.status ≤ 307 then
      some { netloc := host, path := resource, scheme := scheme,
             size := r.body.length, resp_time := end_wall - start_wall,
             err_time := end_cpu - start_cpu }
    else none

/-- `DataClient.Recv` (src/netlib/data/client.py lines 90-125).  The
connection set-up, request and `getresponse` are not inside any
`try`/`except`, so a transport exception (`Except.error` input) propagates
unchanged.  Given a response, statuses 200-206 return the unpickled body
when the `python-type` header is present (`loads` models `cPickle.loads`)
and the raw body string otherwise; any other status logs and returns
`None`. -/
def Recv (loads : String → PyObj) (t : Except PyError HttpResponse) :
    Except PyError PyObj :=
  match t with
  | Except.error e => Except.error e
  | Except.ok r =>
    if 200 ≤ r.status ∧ r.status ≤ 206 then
      if truthy r.python_type then Except.ok (loads r.body)
      else Except.ok (PyObj.pyStr r.body)
    else Except.ok PyObj.pyNone

/-- State of the elastic worker pool shared by `ThreadedLatency` and
`GenUrlListThreaded` (src/net/http.py lines 372-437 and 186-245): the
remaining shared work list, the multiset of items a live worker has popped
but not yet finished, the shared result collection, and (for bookkeeping)
the multiset of items workers have finished processing. -/
structure PoolState (α β : Type) where
  work : List α
  pending : Multiset α
  results : Multiset β
  processed : Multiset α

/-- One scheduler-visible step of the pool.  `f` is the per-item probe:
`none` models an item whose check fails validation (or is banned) and is
dropped, `some r` an item that appends `r` to the shared results — the
worker bodies `__ThreadLatencyWorker` and `__GenUrlListThreadedWorker`.
`pop` is `url_list.pop()` (atomic under the interpreter lock, takes the
last element; a worker that instead finds the list empty merely exits,
which is no step).  `finish` is the worker completing its item and
appending its result, if any, to the shared collection. -/
inductive PoolStep {α β : Type} [DecidableEq α] (f : α → Option β) :
    PoolState α β → PoolState α β → Prop
  | pop (rest : List α) (x : α) (s : PoolState α β) (h : s.work = rest ++ [x]) :
    PoolStep f s { s with work := rest, pending := x ::ₘ s.pending }
  | finish (x : α) (s : PoolState α β) (h : x ∈ s.pending) :
    PoolStep f s { s with pending := s.pending.erase x,
                          results := s.results + ((f x).toList : List β),
                          processed := x ::ₘ s.processed }

/-- The pool's initial state: the whole work list, no live workers, no
results. -/
def initState {α β : Type} (items : List α) : PoolState α β :=
  { work := items, pending := 0, results := 0, processed := 0 }

/-- The server state right after the module is loaded: all four class-level
dictionaries empty (src/data/server.py lines 187-190). -/
def emptyDS : DataServer :=
  { ip_cache := [], data_recv := [], ip_data_store := [],
    all_data_store := [] }

/-- Scheduler-independent measure of remaining pool work: each work-list
item costs a pop and a finish, each pending item a finish. -/
def poolMeasure {α β : Type} (s : PoolState α β) : Nat :=
  2 * s.work.length + Multiset.card s.pending

/-- Invariant of the elastic pool: the work list, the in-flight items and
the finished items partition the initial items, and the result collection
holds exactly the outputs of the finished items. -/
def PoolInv {α β : Type} (items : List α) (f : α → Option β)
    (s : PoolState α β) : Prop :=
  ((s.work : Multiset α) + s.pending + s.processed = (items : Multiset α))
  ∧ s.results = s.processed.bind (fun x => ((f x).toList : Multiset β))

/-- A 301 response carrying no `Location` header. -/
def resp301NoLoc : HttpResponse :=
  { status := 301, location := none, content_length := none,
    python_type := none, body := "" }

/-- A 207 (WebDAV Multi-Status, still a 2xx) response. -/
def resp207 : HttpResponse :=
  { status := 207, location := none, content_length := none,
    python_type := none, body := "xyz" }

/-- A 207 response carrying the structured-payload tag. -/
def resp207Tagged : HttpResponse :=
  { status := 207, location := none, content_length := none,
    python_type := some "<type 'str'>", body := "b" }

/-- A 200 response carrying the structured-payload tag. -/
def resp200Tagged : HttpResponse :=
  { status := 200, location := none, content_length := none,
    python_type := some "<type 'str'>", body := "payload" }

/-- A plain 200 response with a four-byte body. -/
def resp200 : HttpResponse :=
  { status := 200, location := none, content_length := some "4",
    python_type := none, body := "abcd" }

/-- The probe used by the pool witness: every item succeeds. -/
def wF : Nat → Option Nat := fun n => some n

/-- Pool state after the single item `5` has been popped. -/
def wPool1 : PoolState Nat Nat :=
  { work := [], pending := 5 ::ₘ 0, results := 0, processed := 0 }

/-- Pool state after the worker holding `5` finishes. -/
def wPool2 : PoolState Nat Nat :=
  { wPool1 with
    pending := Multiset.erase wPool1.pending 5,
    results := wPool1.results + ((wF 5).toList : List Nat),
    processed := 5 ::ₘ wPool1.processed }

/-! ### Dictionary lemmas -/

theorem dget_dset_self (d : List (String × PyObj)) (k : String) (v : PyObj) :
    dget (dset d k v) k = some v := by
  simp [dset, dget]

theorem dget_derase_ne (d : List (String × PyObj)) (k k2 : String)
    (h : k2 ≠ k) : dget (derase d k2) k = dget d k := by
  induction d with
  | nil => rfl
  | cons a t ih =>
    obtain ⟨ka, va⟩ := a
    by_cases hk : ka = k2
    · subst hk
      simp [derase, dget, h, ih]
    · by_cases hk2 : ka = k
      · subst hk2
        simp [derase, dget, hk]
      · simp [derase, dget, hk, hk2, ih]

theorem dget_dset_ne (d : List (String × PyObj)) (k k2 : String) (v : PyObj)
    (h : k2 ≠ k) : dget (dset d k2 v) k = dget d k := by
  simp [dset, dget, h]
  exact dget_derase_ne d k k2 h

theorem dget_foldl_dset (d : List (String × PyObj))
    (acc : List (String × PyObj)) (k : String) (h : dget d k = none) :
    dget (d.foldl (fun a kv => dset a kv.1 kv.2) acc) k = dget acc k := by
  induction d generalizing acc with
  | nil => rfl
  | cons a t ih =>
    obtain ⟨ka, va⟩ := a
    have hne : ka ≠ k := by
      intro e
      simp [dget, e] at h
    have ht : dget t k = none := by simpa [dget, hne] using h
    rw [List.foldl_cons, ih _ ht, dget_dset_ne _ _ _ _ hne]

/-! ### C1: lookup resolution order -/

/-- Counterexample for claim C1.  The claim's corollary — `Lookup(a, p) == PathStore[p]`
whenever `p` is a key of the broadcast store and `a` a key of the per-address
store — fails when `p` is the reserved key: nothing stops `AddData` from
storing under `GET_ALL_DATA`, and the reserved-key check precedes the
broadcast lookup, so the whole received store is returned instead of the
stored value. -/
theorem lookup_reserved_key_shadows_broadcast :
    let s : DataServer :=
      { ip_cache := [], data_recv := [],
        ip_data_store := [("1.2.3.4", PyObj.pyStr "addr-data")],
        all_data_store := [(GET_ALL_DATA, PyObj.pyStr "path-data")] }
    dmem s.all_data_store GET_ALL_DATA = true ∧
    dmem s.ip_data_store "1.2.3.4" = true ∧
    dget s.all_data_store GET_ALL_DATA = some (PyObj.pyStr "path-data") ∧
    GetCallback s "1.2.3.4" GET_ALL_DATA ≠ PyObj.pyStr "path-data" := by
  decide

/-- Claim C1 (amended): `GetCallback` follows the stated resolution order — the
reserved key returns the whole received store, else a broadcast hit wins,
else a per-address hit, else `None`; and for every non-reserved path present
in the broadcast store the broadcast value is returned regardless of the
address. -/
theorem getCallback_resolution_order (s : DataServer) (a p : String) :
    (p = GET_ALL_DATA → GetCallback s a p = PyObj.pyDict s.data_recv)
  ∧ (p ≠ GET_ALL_DATA → ∀ v, dget s.all_data_store p = some v →
      GetCallback s a p = v)
  ∧ (p ≠ GET_ALL_DATA → dget s.all_data_store p = none →
      ∀ v, dget s.ip_data_store a = some v → GetCallback s a p = v)
  ∧ (p ≠ GET_ALL_DATA → dget s.all_data_store p = none →
      dget s.ip_data_store a = none → GetCallback s a p = PyObj.pyNone) := by
  refine ⟨?_, ?_, ?_, ?_⟩
  · intro hp
    simp [GetCallback, hp]
  · intro hp v hv
    simp [GetCallback, hp, hv]
  · intro hp hb v hv
    simp [GetCallback, hp, hb, hv]
  · intro hp hb ha
    simp [GetCallback, hp, hb, ha]

/-- Witness for `getCallback_resolution_order`: a broadcast hit on a
non-reserved path wins over a per-address hit. -/
theorem getCallback_resolution_order_witness :
    GetCallback
      { ip_cache := [], data_recv := [],
        ip_data_store := [("1.2.3.4", PyObj.pyStr "a-val")],
        all_data_store := [("cfg", PyObj.pyStr "p-val")] }
      "1.2.3.4" "cfg" = PyObj.pyStr "p-val" :=
  (getCallback_resolution_order
    { ip_cache := [], data_recv := [],
      ip_data_store := [("1.2.3.4", PyObj.pyStr "a-val")],
      all_data_store := [("cfg", PyObj.pyStr "p-val")] }
    "1.2.3.4" "cfg").2.1 (by decide) (PyObj.pyStr "p-val") (by decide)

/-! ### C2: store semantics and confirmation string -/

/-- Claim C2: a POST to the reserved key is rejected (`None` response) and leaves
the whole state unchanged; a POST to any other path stores the payload under
`path + "_" + address`, answers `"<path>_<address> = <N> Bytes"` with `N` the
payload length, and a second POST with the same path and address overwrites
the first (last write wins). -/
theorem postCallback_store_and_confirmation (s : DataServer) (a p : String)
    (v1 v2 : PyObj) (n1 : Nat) (h1 : pyLen v1 = some n1) :
    (p = GET_ALL_DATA → PostCallback s a p v1 = (Except.ok none, s))
  ∧ (p ≠ GET_ALL_DATA →
      (PostCallback s a p v1).1
        = Except.ok (some (p ++ "_" ++ a ++ " = " ++ toString n1 ++ " Bytes"))
      ∧ dget (PostCallback s a p v1).2.data_recv (p ++ "_" ++ a) = some v1
      ∧ dget (PostCallback (PostCallback s a p v1).2 a p v2).2.data_recv
          (p ++ "_" ++ a) = some v2) := by
  constructor
  · intro hp
    simp [PostCallback, hp]
  · intro hp
    refine ⟨?_, ?_, ?_⟩
    · simp [PostCallback, hp, h1]
    · simp [PostCallback, hp, h1, dget_dset_self]
    · cases hv : pyLen v2 <;>
        simp [PostCallback, hp, h1, hv, dget_dset_self]

/-- Witness for `postCallback_store_and_confirmation`: posting `"abc"` to
path `upload` from `10.0.0.5` answers `"upload_10.0.0.5 = 3 Bytes"`, stores
the payload, and a second post overwrites it. -/
theorem postCallback_store_and_confirmation_witness :
    (PostCallback emptyDS "10.0.0.5" "upload" (PyObj.pyStr "abc")).1
      = Except.ok (some "upload_10.0.0.5 = 3 Bytes")
  ∧ dget (PostCallback emptyDS "10.0.0.5" "upload"
        (PyObj.pyStr "abc")).2.data_recv
        "upload_10.0.0.5" = some (PyObj.pyStr "abc")
  ∧ dget (PostCallback (PostCallback emptyDS "10.0.0.5" "upload"
        (PyObj.pyStr "abc")).2 "10.0.0.5" "upload"
        (PyObj.pyStr "zz")).2.data_recv "upload_10.0.0.5"
      = some (PyObj.pyStr "zz") :=
  (postCallback_store_and_confirmation emptyDS "10.0.0.5" "upload"
    (PyObj.pyStr "abc") (PyObj.pyStr "zz") 3 (by decide)).2 (by decide)

/-! ### C3: failure of the drain GET during Stop -/

/-- Counterexample for claim C3.  When the drain `Recv` yields `nil`, `Stop` does not
complete cleanly with the controller state intact: iterating the `nil`
drain result raises `TypeError` (src/data/server.py line 312 has no guard
on `recv_data`). -/
theorem stop_drain_nil_not_clean :
    StopVia { host := "ctl", port := 50007 } none
      { ip_cache := [], data_recv := [("k0", PyObj.pyStr "v0")],
        ip_data_store := [], all_data_store := [] }
      = Except.error PyError.typeError ∧
    StopVia { host := "ctl", port := 50007 } none
      { ip_cache := [], data_recv := [("k0", PyObj.pyStr "v0")],
        ip_data_store := [], all_data_store := [] }
      ≠ Except.ok
      { ip_cache := [], data_recv := [("k0", PyObj.pyStr "v0")],
        ip_data_store := [], all_data_store := [] } := by
  decide

/-- Claim C3 (amended): when the drain GET yields `nil`, the merge loop of `Stop`
raises `TypeError` while trying to iterate `nil` — no merge is performed and
no assignment has touched the received store, but the stop sequence ends in
an uncaught exception rather than completing with a logged warning. -/
theorem stop_drain_nil_raises (i : DSInstance) (s : DataServer) :
    StopVia i none s = Except.error PyError.typeError ∧
    StopMerge none s.data_recv = Except.error PyError.typeError := by
  constructor <;> rfl

/-! ### C6: AddData argument validation -/

/-- Counterexample for claim C6.  Calling `AddData` with both a hostname and a key is
not a logged no-op: `assert not hostname` raises `AssertionError` (the state
is still unmutated because the assert fires before any store write). -/
theorem addData_both_args_assertion :
    AddData emptyDS (fun h => h) (PyObj.pyStr "v")
      (some "worker.example.com") (some "cfg")
    = (some PyError.assertionError, emptyDS) := by
  decide

/-- Claim C6 (amended): `AddData` with neither hostname nor key logs and performs
no mutation at all; with both a key and a (truthy) hostname it raises
`AssertionError` before mutating any store, so there is still no partial
mutation, but the call is not a logged no-op. -/
theorem addData_argument_validation (s : DataServer)
    (resolve : String → String) (v : PyObj) :
    (AddData s resolve v none none = (none, s))
  ∧ (∀ h k, truthy (some h) = true →
      AddData s resolve v (some h) (some k)
        = (some PyError.assertionError, s)) := by
  constructor
  · rfl
  · intro h k ht
    simp [AddData, ht]

/-- Witness for `addData_argument_validation`. -/
theorem addData_argument_validation_witness :
    AddData emptyDS (fun h => h) (PyObj.pyInt 7)
      (some "host.example.com") (some "key")
    = (some PyError.assertionError, emptyDS) :=
  (addData_argument_validation emptyDS (fun h => h) (PyObj.pyInt 7)).2
    "host.example.com" "key" (by decide)

/-! ### C9: stored None indistinguishable from absent -/

/-- Counterexample for claim C9.  The claim's consequence fails on the reserved key:
adding `None` under the broadcast path `GET_ALL_DATA` (which `AddData`
permits) leaves the path present in the broadcast store, yet a GET for it
answers 200 with the received-store dump, not 404. -/
theorem broadcast_none_reserved_not_404 :
    let s1 := (AddData emptyDS (fun h => h) PyObj.pyNone none
      (some GET_ALL_DATA)).2
    dmem s1.all_data_store GET_ALL_DATA = true ∧
    (do_GET s1 "9.9.9.9" GET_ALL_DATA).status = 200 := by
  decide

/-- Claim C9 (amended): the GET handler answers 404 exactly when the lookup
callback yields `None`; consequently adding `None` under any non-reserved
broadcast path makes a GET for that path answer 404 even though the path is
present in the broadcast store. -/
theorem do_GET_404_iff_callback_none (s : DataServer) (a p : String) :
    ((do_GET s a p).status = 404 ↔ GetCallback s a p = PyObj.pyNone)
  ∧ (p ≠ GET_ALL_DATA → ∀ resolve,
      dmem (AddData s resolve PyObj.pyNone none (some p)).2.all_data_store p
        = true
      ∧ (do_GET (AddData s resolve PyObj.pyNone none (some p)).2 a p).status
        = 404) := by
  constructor
  · by_cases h : GetCallback s a p = PyObj.pyNone <;> simp [do_GET, h]
  · intro hp resolve
    constructor
    · simp [AddData, truthy, dmem, dget_dset_self]
    · simp [do_GET, GetCallback, AddData, truthy, hp, dget_dset_self]

/-- Witness for `do_GET_404_iff_callback_none`: a `None` stored under the
broadcast path `cfg` is present yet produces a 404. -/
theorem do_GET_404_iff_callback_none_witness :
    dmem (AddData emptyDS (fun h => h) PyObj.pyNone none
      (some "cfg")).2.all_data_store "cfg" = true
    ∧ (do_GET (AddData emptyDS (fun h => h) PyObj.pyNone none
      (some "cfg")).2 "1.2.3.4" "cfg").status = 404 :=
  (do_GET_404_iff_callback_none emptyDS "1.2.3.4" "cfg").2
    (by decide) (fun h => h)

/-! ### C10: class-level shared stores -/

/-- Claim C10: the four stores are class-level state: every operation mutates the
single per-process copy, so a mutation made through one instance is
observed through any other; `Start` touches no store, and the merge in
`Stop` only adds or overwrites received entries — entries not present in
the drain snapshot survive, so the received store persists across
Stop/Start cycles instead of being reset. -/
theorem class_level_stores_shared (i j : DSInstance) (s : DataServer)
    (resolve : String → String) (v : PyObj) (hostname key : Option String)
    (a p : String) (data : PyObj) (d : List (String × PyObj)) :
    AddDataVia i s resolve v hostname key
      = AddDataVia j s resolve v hostname key
  ∧ ResultsVia i s = ResultsVia j s
  ∧ ResultsVia j (AddDataVia i s resolve v hostname key).2
      = (AddDataVia i s resolve v hostname key).2.data_recv
  ∧ ResultsVia j (PostCallback s a p data).2
      = (PostCallback s a p data).2.data_recv
  ∧ StartVia i s = s
  ∧ (∀ k0 v0, dget s.data_recv k0 = some v0 → dget d k0 = none →
      ∃ s2, StopVia i (some d) s = Except.ok s2
        ∧ dget s2.data_recv k0 = some v0
        ∧ ResultsVia j (StartVia j s2) = s2.data_recv) := by
  refine ⟨rfl, rfl, rfl, rfl, rfl, ?_⟩
  intro k0 v0 h1 h2
  refine ⟨_, rfl, ?_, rfl⟩
  simpa [StopVia, StopMerge, dget_foldl_dset d s.data_recv k0 h2] using h1

/-- Witness for `class_level_stores_shared`: a received entry not present in
the drain snapshot survives a Stop performed through a different
instance. -/
theorem class_level_stores_shared_witness :
    ∃ s2, StopVia { host := "ctl", port := 50007 }
        (some [("new", PyObj.pyStr "n")])
        { ip_cache := [], data_recv := [("old", PyObj.pyStr "o")],
          ip_data_store := [], all_data_store := [] } = Except.ok s2
      ∧ dget s2.data_recv "old" = some (PyObj.pyStr "o")
      ∧ ResultsVia { host := "w", port := 1 }
          (StartVia { host := "w", port := 1 } s2) = s2.data_recv :=
  (class_level_stores_shared { host := "ctl", port := 50007 }
    { host := "w", port := 1 }
    { ip_cache := [], data_recv := [("old", PyObj.pyStr "o")],
      ip_data_store := [], all_data_store := [] }
    (fun h => h) PyObj.pyNone none none "a" "p" PyObj.pyNone
    [("new", PyObj.pyStr "n")]).2.2.2.2.2 "old" (PyObj.pyStr "o")
    (by decide) (by decide)

/-! ### C4: HttpCheck classification -/

/-- Claim C4: evaluation of `HttpCheck` at the failing input.  A HEAD response
with a redirect status but no `Location` header makes the code call
`urlsplit(None)`, which raises `AttributeError`; the call sits after the
`try`/`except` block (src/net/http.py line 295), so the exception escapes,
contradicting both the claim and the function's own docstring ("all lower
exceptions caught here ... No new exceptions generated here"). -/
theorem httpCheck_redirect_missing_location_raises :
    HttpCheck "self.example.com" "http" "h" "/r" "http" (some resp301NoLoc)
      = Except.error PyError.attributeError := by
  decide

/-! ### C5: HttpLatency classification -/

/-- Counterexample for claim C5.  Status 207 lies in the 2xx range, yet `HttpLatency`
returns the failure sentinel for it: the code accepts only 200-206 (and
300-307), not the whole 2xx/3xx ranges. -/
theorem httpLatency_207_returns_sentinel :
    HttpLatency "h" "/r" "http" (Transport.resp resp207) 0 5 0 1
      = none := by
  decide

/-- Claim C5 (amended): for a response with status in 200-206 or 300-307,
`HttpLatency` returns a record with the byte size of the fully read body,
the wall-clock delta and the process-time delta; for any other status
(including 2xx statuses above 206 and 3xx statuses above 307, hence all
4xx/5xx), and for a timeout or any other transport exception, it returns
the failure sentinel. -/
theorem httpLatency_classification (host resource scheme : String)
    (r : HttpResponse) (sw ew sc ec : Int) :
    ((200 ≤ r.status ∧ r.status ≤ 206) ∨ (300 ≤ r.status ∧ r.status ≤ 307) →
      HttpLatency host resource scheme (Transport.resp r) sw ew sc ec
        = some { netloc := host, path := resource, scheme := scheme,
                 size := r.body.length, resp_time := ew - sw,
                 err_time := ec - sc })
  ∧ (¬ ((200 ≤ r.status ∧ r.status ≤ 206) ∨
        (300 ≤ r.status ∧ r.status ≤ 307)) →
      HttpLatency host resource scheme (Transport.resp r) sw ew sc ec = none)
  ∧ HttpLatency host resource scheme Transport.timeout sw ew sc ec = none
  ∧ HttpLatency host resource scheme Transport.failure sw ew sc ec = none := by
  refine ⟨?_, ?_, rfl, rfl⟩
  · rintro (⟨h1, h2⟩ | ⟨h1, h2⟩)
    · simp [HttpLatency, h1, h2]
    · have hno : ¬ (200 ≤ r.status ∧ r.status ≤ 206) := by omega
      simp [HttpLatency, hno, h1, h2]
  · intro h
    have hA : ¬ (200 ≤ r.status ∧ r.status ≤ 206) := fun hA => h (Or.inl hA)
    have hB : ¬ (300 ≤ r.status ∧ r.status ≤ 307) := fun hB => h (Or.inr hB)
    simp [HttpLatency, hA, hB]

/-- Witness for `httpLatency_classification`: a 200 response with a
four-byte body measured between wall clocks 0 and 7 and cpu clocks 0 and 2
yields the corresponding record. -/
theorem httpLatency_classification_witness :
    HttpLatency "h" "/r" "http" (Transport.resp resp200) 0 7 0 2
      = some { netloc := "h", path := "/r", scheme := "http", size := 4,
               resp_time := 7, err_time := 2 } := by
  have h := (httpLatency_classification "h" "/r" "http" resp200 0 7 0 2).1
    (Or.inl (by decide))
  rw [h]
  decide

/-! ### C7: Recv classification -/

/-- Counterexample for claim C7.  First, a 207 response (a 2xx status) carrying the
structured-payload tag yields `nil`, not the deserialized body; second, a
transport exception raised while issuing the GET is not caught anywhere in
`Recv` and escapes to the caller. -/
theorem recv_207_and_transport_escape :
    Recv PyObj.pyStr (Except.ok resp207Tagged) = Except.ok PyObj.pyNone
  ∧ Recv PyObj.pyStr (Except.error PyError.socketError)
      = Except.error PyError.socketError := by
  decide

/-- Claim C7 (amended): `Recv` returns `nil` on any response with status outside
200-206 (including 2xx statuses above 206); for statuses 200-206 it returns
the deserialized body when the structured-payload tag header is present and
the raw byte string otherwise; exceptions from the connection set-up or the
request itself are not caught and propagate to the caller. -/
theorem recv_classification (loads : String → PyObj) (e : PyError)
    (r : HttpResponse) :
    Recv loads (Except.error e) = Except.error e
  ∧ (200 ≤ r.status ∧ r.status ≤ 206 → truthy r.python_type = true →
      Recv loads (Except.ok r) = Except.ok (loads r.body))
  ∧ (200 ≤ r.status ∧ r.status ≤ 206 → truthy r.python_type = false →
      Recv loads (Except.ok r) = Except.ok (PyObj.pyStr r.body))
  ∧ (¬ (200 ≤ r.status ∧ r.status ≤ 206) →
      Recv loads (Except.ok r) = Except.ok PyObj.pyNone) := by
  refine ⟨rfl, ?_, ?_, ?_⟩
  · intro h1 h2
    simp [Recv, h1, h2]
  · intro h1 h2
    simp [Recv, h1, h2]
  · intro h1
    simp [Recv, h1]

/-- Witness for `recv_classification`: a tagged 200 response deserializes
its body. -/
theorem recv_classification_witness :
    Recv PyObj.pyStr (Except.ok resp200Tagged)
      = Except.ok (PyObj.pyStr "payload") :=
  (recv_classification PyObj.pyStr PyError.socketError resp200Tagged).2.1
    (by decide) (by decide)

/-! ### C8: elastic pool completeness -/

theorem poolInv_init {α β : Type} (items : List α) (f : α → Option β) :
    PoolInv items f (initState items) := by
  constructor
  · simp [initState]
  · simp [initState]

theorem poolStep_preserves {α β : Type} [DecidableEq α] {items : List α}
    {f : α → Option β} {s t : PoolState α β} (h : PoolStep f s t)
    (hi : PoolInv items f s) : PoolInv items f t := by
  obtain ⟨hm, hr⟩ := hi
  cases h with
  | pop rest x s hw =>
    refine ⟨?_, hr⟩
    dsimp only
    rw [← hm, hw, ← Multiset.singleton_add, ← Multiset.coe_add,
      Multiset.coe_singleton]
    abel
  | finish x s hx =>
    have hpend := Multiset.cons_erase hx
    constructor
    · dsimp only
      rw [← hm]
      conv_rhs => rw [← hpend]
      rw [← Multiset.singleton_add, ← Multiset.singleton_add]
      abel
    · dsimp only
      rw [Multiset.cons_bind, hr, add_comm]

theorem poolInv_reachable {α β : Type} [DecidableEq α] {items : List α}
    {f : α → Option β} {s : PoolState α β}
    (h : Relation.ReflTransGen (PoolStep f) (initState items) s) :
    PoolInv items f s := by
  induction h with
  | refl => exact poolInv_init items f
  | tail _ hbc ih => exact poolStep_preserves hbc ih

theorem pool_terminal_work_pending {α β : Type} [DecidableEq α]
    {f : α → Option β} {s : PoolState α β} (h : ∀ t, ¬ PoolStep f s t) :
    s.work = [] ∧ s.pending = 0 := by
  constructor
  · rcases List.eq_nil_or_concat s.work with h0 | ⟨l, a, hc⟩
    · exact h0
    · exact ((h _ (PoolStep.pop l a s (hc.trans (List.concat_eq_append l a))))).elim
  · by_contra hp
    obtain ⟨x, hx⟩ := Multiset.exists_mem_of_ne_zero hp
    exact h _ (PoolStep.finish x s hx)

theorem filterMap_eq_flatMap_toList {α β : Type} (items : List α)
    (f : α → Option β) :
    items.filterMap f = items.flatMap (fun a => (f a).toList) := by
  induction items with
  | nil => rfl
  | cons a t ih =>
    cases hfa : f a <;> simp [List.filterMap_cons, hfa, ih]

theorem coe_filterMap_eq_bind {α β : Type} (items : List α)
    (f : α → Option β) :
    ((items.filterMap f : List β) : Multiset β)
      = (items : Multiset α).bind (fun x => ((f x).toList : Multiset β)) := by
  rw [filterMap_eq_flatMap_toList, Multiset.coe_bind]

theorem length_filterMap_of_total {α β : Type} (items : List α)
    (f : α → Option β) (h : ∀ x, (f x).isSome) :
    (items.filterMap f).length = items.length := by
  induction items with
  | nil => rfl
  | cons a t ih =>
    obtain ⟨b, hb⟩ := Option.isSome_iff_exists.mp (h a)
    simp [List.filterMap_cons, hb, ih]

theorem poolMeasure_decreases {α β : Type} [DecidableEq α]
    {f : α → Option β} {u v : PoolState α β} (h : PoolStep f u v) :
    poolMeasure v < poolMeasure u := by
  cases h with
  | pop rest x u hw =>
    have hlen : u.work.length = rest.length + 1 := by simp [hw]
    simp [poolMeasure, hlen]
    omega
  | finish x u hx =>
    have hcard := Multiset.card_erase_of_mem hx
    have hpos : u.pending ≠ 0 := by
      intro h0
      rw [h0] at hx
      exact Multiset.not_mem_zero x hx
    have hpos2 : 0 < Multiset.card u.pending := Multiset.card_pos.mpr hpos
    simp [poolMeasure, hcard]
    omega

/-- Claim C8: the elastic pool is complete and duplicates no work.  Quantifying
over every interleaving of `PoolStep` (which subsumes every concurrency
bound `N`): once no step remains, the shared result collection holds
exactly the outputs of the items (each appears once, items whose probe
returns nothing are dropped), the multiset of processed items is exactly
the work list with every distinct item processed exactly once, a total
probe yields exactly `K` results for `K` items, and every step strictly
decreases `poolMeasure`, so no execution runs forever. -/
theorem pool_completeness {α β : Type} [DecidableEq α] (items : List α)
    (f : α → Option β) (s : PoolState α β) (hnd : items.Nodup)
    (hreach : Relation.ReflTransGen (PoolStep f) (initState items) s)
    (hterm : ∀ t, ¬ PoolStep f s t) :
    s.results = ((items.filterMap f : List β) : Multiset β)
  ∧ s.processed = (items : Multiset α)
  ∧ (∀ x ∈ items, s.processed.count x = 1)
  ∧ ((∀ x, (f x).isSome) → Multiset.card s.results = items.length)
  ∧ (∀ u v : PoolState α β, PoolStep f u v → poolMeasure v < poolMeasure u)
    := by
  obtain ⟨hw, hp⟩ := pool_terminal_work_pending hterm
  obtain ⟨hm, hr⟩ := poolInv_reachable hreach
  have hproc : s.processed = (items : Multiset α) := by
    rw [hw, hp] at hm
    simpa using hm
  have hres : s.results = ((items.filterMap f : List β) : Multiset β) := by
    rw [hr, hproc, coe_filterMap_eq_bind]
  refine ⟨hres, hproc, ?_, ?_, fun u v h => poolMeasure_decreases h⟩
  · intro x hx
    rw [hproc, Multiset.coe_count]
    exact List.count_eq_one_of_mem hnd hx
  · intro hf
    rw [hres, Multiset.coe_card, length_filterMap_of_total items f hf]

/-- Witness for `pool_completeness`: the two-step execution that pops the
single item `5` and finishes it reaches a terminal state whose results and
processed items are exactly as stated. -/
theorem pool_completeness_witness :
    wPool2.results = (([5].filterMap wF : List Nat) : Multiset Nat)
  ∧ wPool2.processed = (([5] : List Nat) : Multiset Nat) := by
  have hstep1 : PoolStep wF (initState [5]) wPool1 :=
    PoolStep.pop [] 5 (initState [5]) rfl
  have hstep2 : PoolStep wF wPool1 wPool2 :=
    PoolStep.finish 5 wPool1 (by decide)
  have hterm : ∀ t, ¬ PoolStep wF wPool2 t := by
    intro t h
    cases h with
    | pop rest x s hw => simp [wPool2, wPool1] at hw
    | finish x s hx => simp [wPool2, wPool1] at hx
  have h := pool_completeness [5] wF wPool2 (by decide)
    (Relation.ReflTransGen.head hstep1
      (Relation.ReflTransGen.head hstep2 Relation.ReflTransGen.refl)) hterm
  exact ⟨h.1, h.2.1⟩

end NetLib
